import Mathlib

/-!
Verification development for the `noveogroup/rpc` (dual-rpc-ws) repository.

The embedding models the current sources cited by the specification:
* `src/common.ts` (the snapshot with `RPCHelpers`, `getMessage`, the `Request`
  class) and the sibling `common.ts` snapshot exporting `getMessageAndType`;
* `src/client.ts` (the `Client` / `ReconnectingClient` snapshot that uses
  `Errors` and `RPCHelpers`);
* `src/server.ts` (the `Server` snapshot with `prepareContext`);
* `src/errors.ts`.

JavaScript run-time behaviour is made explicit: property access on `null`
throws a `TypeError`, absent properties read as `undefined` (modelled with
`Option`), truthiness follows the JS rules, `JSON.stringify` drops
object entries whose value is `undefined`, and a `setTimeout` timer that is
never cleared eventually fires.  `JSON.parse`/`JSON.stringify` themselves are
host builtins; the codec is modelled at the level of the JS value that is
stringified on the way out and of the JS value produced by a successful parse
on the way in (`none` standing for a parse failure, i.e. `JSON.parse` threw
and the surrounding `try`/`catch` caught it).  JSON numbers are modelled as
integers; none of the claims depends on fractional values.
-/

/-- A JavaScript value that can result from `JSON.parse`:
`null`, booleans, numbers, strings, arrays and plain objects.
Objects are association lists in insertion order (duplicate keys cannot
result from `JSON.parse`, which keeps the last occurrence only). -/
inductive JSValue where
  | null
  | bool (b : Bool)
  | num (n : Int)
  | str (s : String)
  | arr (items : List JSValue)
  | obj (fields : List (String × JSValue))

/-- JavaScript truthiness of a defined value: `null`, `false`, `0` and the
empty string are falsy; arrays and objects are always truthy. -/
def JSValue.truthy : JSValue → Bool
  | .null => false
  | .bool b => b
  | .num n => n != 0
  | .str s => s != ""
  | .arr _ => true
  | .obj _ => true

/-- Property access `v.k` on a defined, non-`null` value: a key lookup on an
object, `undefined` (`none`) on anything else (primitives and arrays have no
such own property for the keys used by this protocol).  Access on `null`
throws and is handled separately by the callers below. -/
def getField : JSValue → String → Option JSValue
  | .obj fields, key => fields.lookup key
  | _, _ => none

/-- The JS `in` operator restricted to the values on which the decoders reach
it (plain objects): key membership.  For `JSON.parse` results a present key
always carries a defined value, so this agrees with `(getField v k).isSome`. -/
def hasField (v : JSValue) (key : String) : Bool :=
  (getField v key).isSome

/-- Truthiness of a property-access result; `undefined` (`none`) is falsy. -/
def truthyOpt : Option JSValue → Bool
  | none => false
  | some v => v.truthy

/-- Optional chaining `base?.k` applied to a property-access result:
`undefined` and `null` short-circuit to `undefined`, anything else is a plain
property access. -/
def optChainField : Option JSValue → String → Option JSValue
  | none, _ => none
  | some .null, _ => none
  | some v, key => getField v key

/-- JS strict equality `x === lit` of a property-access result against a
string literal (the only value comparisons the decoders and settlement code
perform): true exactly when the value is that string. -/
def isStr : Option JSValue → String → Bool
  | some (.str t), s => t == s
  | _, _ => false

/-- A JavaScript exception escaping the decoder (reading a property of
`null`). -/
inductive JSError where
  | typeError
deriving DecidableEq, Repr

/-- `MessageType` from `common.ts`. -/
inductive MessageType where
  | Connect
  | Request
  | Response
  | Error
  | Malformed
deriving DecidableEq, Repr

/-- The tagged message produced by `getMessage` in `common.ts`
(`RPCMessages.RPCMessageType`).  Every payload field stores the raw result of
the corresponding property access (`none` = `undefined`). -/
inductive RPCMessageType where
  | connect (id : Option JSValue) (params : Option JSValue)
  | request (id : Option JSValue) (method : Option JSValue) (params : Option JSValue)
  | response (id : Option JSValue) (result : Option JSValue)
  | error (id : Option JSValue) (errorField : Option JSValue)
  | malformed

/-- The classification tag of a decoded message. -/
def RPCMessageType.kind : RPCMessageType → MessageType
  | .connect _ _ => .Connect
  | .request _ _ _ => .Request
  | .response _ _ => .Response
  | .error _ _ => .Error
  | .malformed => .Malformed

/-- `getMessage` from `common.ts`, on the outcome of `JSON.parse data`
(`none` = the parse threw, caught by the `try`/`catch`).  The first statement
after the `catch` is `message.id`, which throws a `TypeError` when the parse
result is `null`; every other non-object parse result reads `undefined`
fields and falls into the `Malformed` branch. -/
def getMessage : Option JSValue → Except JSError RPCMessageType
  | none => .ok .malformed
  | some .null => .error .typeError
  | some m =>
    if !truthyOpt (getField m "id") || !isStr (getField m "jsonrpc") "2.0" then
      .ok .malformed
    else if hasField m "method" && isStr (getField m "method") "connect" then
      .ok (.connect (getField m "id") (getField m "params"))
    else if hasField m "method" then
      .ok (.request (getField m "id") (getField m "method") (getField m "params"))
    else if hasField m "result" then
      .ok (.response (getField m "id") (getField m "result"))
    else if hasField m "error" then
      .ok (.error (getField m "id") (getField m "error"))
    else
      .ok .malformed

/-- `getMessageAndType` from the sibling `common.ts` snapshot, on the outcome
of `JSON.parse data`.  It returns `[type, message]` — modelled as the pair of
the `MessageType` and the raw message (`none` when the early `Malformed`
return carries no message).  Unlike `getMessage`, its `Connect` arm also
requires a truthy `message.params?.id`.  As above, a `null` parse result makes
`message.id` throw. -/
def getMessageAndType : Option JSValue → Except JSError (MessageType × Option JSValue)
  | none => .ok (.Malformed, none)
  | some .null => .error .typeError
  | some m =>
    if !truthyOpt (getField m "id") || !isStr (getField m "jsonrpc") "2.0" then
      .ok (.Malformed, none)
    else if hasField m "method" && isStr (getField m "method") "connect"
        && truthyOpt (optChainField (getField m "params") "id") then
      .ok (.Connect, some m)
    else if hasField m "method" then
      .ok (.Request, some m)
    else if hasField m "result" then
      .ok (.Response, some m)
    else if hasField m "error" then
      .ok (.Error, some m)
    else
      .ok (.Malformed, some m)

/-- `RPCHelpers.rpcRequest` / `rpcRequest`: the object handed to
`JSON.stringify` is `{jsonrpc: '2.0', method, params, id}`.  The `id`
argument is kept as a raw JS value because the server echoes `message.id`
through it. -/
def rpcRequest (method : String) (params id : JSValue) : JSValue :=
  .obj [("jsonrpc", .str "2.0"), ("method", .str method), ("params", params), ("id", id)]

/-- `RPCHelpers.rpcResponse` (the snapshot with the default parameter
`result: any = null`): an explicit `undefined` argument triggers the default,
so the stringified object always carries a `result` key. -/
def rpcResponseHelpers (result : Option JSValue) (id : JSValue) : JSValue :=
  .obj [("jsonrpc", .str "2.0"), ("result", result.getD .null), ("id", id)]

/-- `rpcResponse` from the `getMessageAndType` snapshot of `common.ts`: no
default parameter, so when the handler result is `undefined` the
`result` entry is dropped by `JSON.stringify` and the wire object has no
`result` key at all. -/
def rpcResponseCommon (result : Option JSValue) (id : JSValue) : JSValue :=
  .obj (("jsonrpc", .str "2.0") ::
    (match result with
      | some r => [("result", r)]
      | none => []) ++ [("id", id)])

/-- `RPCHelpers.rpcError` / `rpcError`: `{jsonrpc: '2.0', error, id}`. -/
def rpcError (error id : JSValue) : JSValue :=
  .obj [("jsonrpc", .str "2.0"), ("error", error), ("id", id)]


/-! ## Pending-call lifecycle

The `Request` class in `common.ts` stores `resolve`/`reject` and starts a
`setTimeout` timer whose callback unconditionally runs
`this.reject(new Errors.RequestError('dual-rpc-ws request timeout'))` and then
the destructor (which deletes the id from the `requests` map).  No code path
in the repository calls `clearTimeout`, so once a call is registered its timer
is guaranteed to fire exactly once.  The Response/Error settlement path in the
message listeners looks the id up in `requests`, invokes `resolve`/`reject`
and deletes the entry, leaving the timer untouched. -/

/-- Observable state of one registered pending call: whether its id is still
in the `requests` map, whether its `setTimeout` timer is still scheduled, and
how many times the stored `resolve` and `reject` continuations have been
invoked. -/
structure PendingCall where
  inTable : Bool
  timerScheduled : Bool
  resolveInvocations : Nat
  rejectInvocations : Nat
deriving DecidableEq, Repr

/-- A call right after `requests.set(id, new Request({...}))`. -/
def registeredCall : PendingCall :=
  { inTable := true, timerScheduled := true,
    resolveInvocations := 0, rejectInvocations := 0 }

/-- Events that can reach one pending call: a matching Response envelope, a
matching Error envelope, or the firing of its deadline timer. -/
inductive CallEvent where
  | responseArrives
  | errorArrives
  | timerFires
deriving DecidableEq, Repr

/-- One step of the pending-call lifecycle, from the message listener
(`requests.get` / resolve-or-reject / `requests.delete`) and the `Request`
timer callback (`this.reject(...)` followed by the destructor, which runs
`requests.delete`; never guarded, never cleared). -/
def callStep (s : PendingCall) : CallEvent → PendingCall
  | .responseArrives =>
    if s.inTable then
      { s with inTable := false, resolveInvocations := s.resolveInvocations + 1 }
    else s
  | .errorArrives =>
    if s.inTable then
      { s with inTable := false, rejectInvocations := s.rejectInvocations + 1 }
    else s
  | .timerFires =>
    if s.timerScheduled then
      { s with
        timerScheduled := false, inTable := false,
        rejectInvocations := s.rejectInvocations + 1 }
    else s

/-- Run a sequence of events against one pending call. -/
def runCall (s : PendingCall) : List CallEvent → PendingCall
  | [] => s
  | e :: es => runCall (callStep s e) es

/-! ## Settlement of a pending call by an inbound Response/Error envelope -/

/-- What the Response/Error arm of a message listener does with the pending
call (or with the error channel). -/
inductive SettleAction where
  | resolved (result : Option JSValue)
  | rejectedProcedureNotFound
  | rejectedRequestError (errorField : Option JSValue)
  | rejectedPlainError (errorField : Option JSValue)
  | wrongIdNotified
  | wrongIdThrown
  | noSettlement

/-- Coarse tag of a `SettleAction`, used to compare rejection kinds. -/
inductive SettleTag where
  | resolvedTag
  | procedureNotFoundTag
  | requestErrorTag
  | plainErrorTag
  | wrongIdTag
  | noSettlementTag
deriving DecidableEq, Repr

/-- Tag of a settle action. -/
def SettleAction.tag : SettleAction → SettleTag
  | .resolved _ => .resolvedTag
  | .rejectedProcedureNotFound => .procedureNotFoundTag
  | .rejectedRequestError _ => .requestErrorTag
  | .rejectedPlainError _ => .plainErrorTag
  | .wrongIdNotified => .wrongIdTag
  | .wrongIdThrown => .wrongIdTag
  | .noSettlement => .noSettlementTag

/-- The Response/Error arm of the `Client` message listener in `client.ts`:
unknown id is reported through `errorHandler` as a
`RequestError('Wrong request id: ...')`; a Response resolves with
`message.result`; an Error rejects with `ProcedureNotFoundError` exactly when
`message.error === 'Procedure not found.'` and with
`RequestError(message.error)` otherwise. -/
def clientSettle (isResponse : Bool) (result errorField : Option JSValue)
    (known : Bool) : SettleAction :=
  if !known then .wrongIdNotified
  else if isResponse then .resolved result
  else if isStr errorField "Procedure not found." then .rejectedProcedureNotFound
  else .rejectedRequestError errorField

/-- The Response/Error arm of the `Server` message listener in `server.ts`:
unknown id throws `Error('Wrong request id: ...')`; then
`typeof message.result !== 'undefined'` resolves,
else `typeof message.error !== 'undefined'` rejects with the plain
`new Error(message.error)` — the server side never constructs
`ProcedureNotFoundError`. -/
def serverSettle (result errorField : Option JSValue) (known : Bool) : SettleAction :=
  if !known then .wrongIdThrown
  else if result.isSome then .resolved result
  else if errorField.isSome then .rejectedPlainError errorField
  else .noSettlement

/-! ## Outbound call issuance -/

/-- The error taxonomy of `errors.ts` (constructors `notConnectedError`,
`procedureNotFoundError`, `invalidJSONRPCError`, `requestError`) together
with the plain `Error` values that `server.ts` throws directly
(`plainError`).  `errors.ts` defines no `AlreadyConnected` class. -/
inductive RPCErr where
  | notConnectedError (message : String)
  | procedureNotFoundError
  | invalidJSONRPCError (message : String)
  | requestError (message : String)
  | plainError (message : String)
deriving DecidableEq, Repr

/-- Browser WebSocket `OPEN` ready state. -/
def WS_OPEN : Nat := 1

/-- Observable state of a `Client` endpoint for `call`: the socket ready
state, the ids in the `requests` map, and the envelopes sent so far. -/
structure ClientEndpoint where
  readyState : Nat
  requests : List String
  sent : List JSValue

/-- `Client.call` in `client.ts`: when `this.readyState !== this.OPEN` it
throws `new Errors.NotConnectedError()` (default message `'Not connected.'`)
before touching the requests map or the socket; otherwise it registers a
fresh pending call and sends `rpcRequest(method, params ?? null, id)`. -/
def clientCall (c : ClientEndpoint) (method : String) (params : Option JSValue)
    (freshId : String) : ClientEndpoint × Option RPCErr :=
  if c.readyState != WS_OPEN then (c, some (.notConnectedError "Not connected."))
  else
    ({ c with
       requests := freshId :: c.requests,
       sent := c.sent ++ [rpcRequest method (params.getD .null) (.str freshId)] },
     none)

/-- Observable state of the `Server` for `call`: the device registry
(token to socket), the ids in the `requests` map, and the envelopes sent per
socket.  Registry keys are modelled as strings, the token kind clients send
(`params.id`). -/
structure ServerEndpoint where
  devices : List (String × Nat)
  requests : List String
  sentTo : List (Nat × JSValue)

/-- `Server.call` in `server.ts`: an unknown token throws the plain
`Error` with message "Client with token: <token> doesn't connected" — not an
`Errors.NotConnectedError` — before any request record or wire message is
produced; otherwise it registers a fresh pending call and sends
`rpcRequest(method, params ?? null, id)` to the device socket. -/
def serverCall (s : ServerEndpoint) (token method : String) (params : Option JSValue)
    (freshId : String) : ServerEndpoint × Option RPCErr :=
  match s.devices.lookup token with
  | none =>
    (s, some (.plainError ("Client with token: " ++ token ++ " doesn\x27t connected")))
  | some sock =>
    ({ s with
       requests := freshId :: s.requests,
       sentTo := s.sentTo ++ [(sock, rpcRequest method (params.getD .null) (.str freshId))] },
     none)

/-! ## Server Connect branch (handshake) -/

/-- Behaviour of the `handshake` hook for one Connect message: it either
returns a boolean (possibly via a resolved promise) or throws / rejects. -/
inductive HandshakeOutcome where
  | returns (result : Bool)
  | throws (message : String)

/-- Everything the Connect arm of the `Server` message listener does:
which envelopes it sends on the socket, whether it calls `ws.close()`,
which token value it writes into `devices` (and `ws.token`), and an
exception or promise rejection that escapes the `async` listener. -/
structure ConnectOutcome where
  sentMessages : List JSValue
  closedSocket : Bool
  registeredToken : Option JSValue
  uncaught : Option String

/-- The Connect arm in `server.ts`: a falsy `message.params.id` throws
`Error('No connection id presents in ...')`; otherwise the token is stored in
`devices` and on `ws.token` before the hook runs, the reply
`rpcRequest('connect', { result }, message.id)` is sent — its `params` object
has a single `result` entry and never a `message` entry — and the socket is
closed exactly when `result` is falsy.  When the hook throws, the `await`
rejects the listener before any reply is sent or any close is issued. -/
def connectBranch (paramsId : Option JSValue) (msgId : JSValue)
    (h : HandshakeOutcome) : ConnectOutcome :=
  if !truthyOpt paramsId then
    { sentMessages := [], closedSocket := false, registeredToken := none,
      uncaught := some "No connection id presents" }
  else
    match h with
    | .returns result =>
      { sentMessages := [rpcRequest "connect" (.obj [("result", .bool result)]) msgId],
        closedSocket := !result, registeredToken := paramsId, uncaught := none }
    | .throws msg =>
      { sentMessages := [], closedSocket := false, registeredToken := paramsId,
        uncaught := some msg }

/-! ## Inbound Request dispatch -/

/-- Outcome of looking up and running the registered handler for an inbound
Request: no handler registered, a (possibly awaited) result — `none` standing
for `undefined` —, or a thrown error with its `.message` text. -/
inductive HandlerOutcome where
  | missing
  | returns (result : Option JSValue)
  | throws (message : String)

/-- Which endpoint processes the inbound Request: the `Client`
(`client.ts`, replying through `RPCHelpers.rpcResponse` with its
`result: any = null` default) or the `Server` (`server.ts`, replying through
the default-less `rpcResponse` of its `common.ts`). -/
inductive EndpointSide where
  | client
  | server
deriving DecidableEq, Repr

/-- The Request arm of the message listeners: a missing handler replies
`rpcError('Procedure not found.', message.id)`; a successful handler replies
with the side's `rpcResponse(result, message.id)`; a throwing handler replies
`rpcError(error.message, message.id)`.  Exactly one envelope is sent in every
case, correlated by the inbound `message.id`. -/
def requestBranch (side : EndpointSide) (h : HandlerOutcome) (msgId : JSValue) :
    List JSValue :=
  match h with
  | .missing => [rpcError (.str "Procedure not found.") msgId]
  | .returns r =>
    [match side with
      | .client => rpcResponseHelpers r msgId
      | .server => rpcResponseCommon r msgId]
  | .throws msg => [rpcError (.str msg) msgId]

/-! ## Server device registry across connections -/

/-- JS `Map.set`: update the value in place when the key is present,
append otherwise (insertion order preserved). -/
def mapSet {α β : Type} [BEq α] (m : List (α × β)) (key : α) (val : β) :
    List (α × β) :=
  if (m.lookup key).isSome then
    m.map fun p => if p.1 == key then (key, val) else p
  else m ++ [(key, val)]

/-- JS `Map.delete`. -/
def mapDelete {α β : Type} [BEq α] (m : List (α × β)) (key : α) : List (α × β) :=
  m.filter fun p => !(p.1 == key)

/-- Registry-relevant state of the `Server`: the `devices` map, the `token`
property written on each client socket, and the tokens passed to `rpcClose`
notifications so far (`none` when `ws.token` was never assigned).  Sockets are
identified by numbers. -/
structure ServerConnState where
  devices : List (String × Nat)
  sockToken : List (Nat × String)
  rpcCloseEvents : List (Option String)
deriving DecidableEq, Repr

/-- Registry-relevant events: a Connect envelope with a (truthy, string)
token processed on a socket, and a socket `close` event. -/
inductive ServerConnEvent where
  | connectReceived (sock : Nat) (token : String)
  | socketClosed (sock : Nat)
deriving DecidableEq, Repr

/-- Transition of the registry state, from `server.ts`: the Connect arm runs
`this.devices.set(message.params.id, ws)` and `ws.token = message.params.id`;
the socket `close` handler runs `this.devices.delete(ws.token)` — keyed by
the closing socket's own `token` property, without checking which socket the
registry currently holds for it — and then `this.rpcClose(ws.token)`. -/
def serverConnStep (s : ServerConnState) : ServerConnEvent → ServerConnState
  | .connectReceived sock token =>
    { s with
      devices := mapSet s.devices token sock,
      sockToken := mapSet s.sockToken sock token }
  | .socketClosed sock =>
    match s.sockToken.lookup sock with
    | some token =>
      { s with
        devices := mapDelete s.devices token,
        rpcCloseEvents := s.rpcCloseEvents ++ [some token] }
    | none =>
      { s with rpcCloseEvents := s.rpcCloseEvents ++ [none] }

/-- Run a sequence of registry events. -/
def runServerConn (s : ServerConnState) : List ServerConnEvent → ServerConnState
  | [] => s
  | e :: es => runServerConn (serverConnStep s e) es

/-- The registry with no connections. -/
def emptyServerConn : ServerConnState :=
  { devices := [], sockToken := [], rpcCloseEvents := [] }

/-! ## ReconnectingClient.init -/

/-- Connection-relevant state of a `ReconnectingClient`: whether
`this.instance` currently holds a live `Client`, how many underlying
`Client` transports have been constructed, and the two flags the class
maintains. -/
structure ReconnectingClientState where
  instanceLive : Bool
  clientsCreated : Nat
  connectedForTheFirstTime : Bool
  serverRejected : Bool
deriving DecidableEq, Repr

/-- How an `init()` invocation starts out: it either begins a fresh
connection attempt by constructing a new underlying `Client`, or fails
immediately with the distinguished already-connected error.  The second
outcome exists so that the specified behaviour is statable; `client.ts`
contains no code producing it and `errors.ts` defines no `AlreadyConnected`
class. -/
inductive InitOutcome where
  | startedNewClient
  | failedAlreadyConnected
deriving DecidableEq, Repr

/-- `ReconnectingClient.init` in `client.ts`: it unconditionally resets
`connectedForTheFirstTime` and constructs a new `Client` assigned to
`this.instance` — there is no check of the current connection state and no
early-failure path. -/
def rcInit (s : ReconnectingClientState) : ReconnectingClientState × InitOutcome :=
  ({ s with
     connectedForTheFirstTime := false,
     instanceLive := true,
     clientsCreated := s.clientsCreated + 1 },
   .startedNewClient)

/-! ## The classification rule as the specification words it (claim C3) -/

/-- The ordered classification rule exactly as claim C3 states it: parse
failure, or missing `id`, or `version` different from the fixed constant
`'2.0'` gives Malformed; otherwise a present `method` equal to `'connect'`
gives Connect; a present `method` with any other value gives Request;
otherwise a present `result` gives Response; otherwise a present `error`
gives Error; otherwise Malformed. -/
def specOrderedClassify : Option JSValue → MessageType
  | none => .Malformed
  | some v =>
    if !hasField v "id" || !isStr (getField v "jsonrpc") "2.0" then .Malformed
    else if isStr (getField v "method") "connect" then .Connect
    else if hasField v "method" then .Request
    else if hasField v "result" then .Response
    else if hasField v "error" then .Error
    else .Malformed

/-- The amended classification rule (the correction of claim C3):
a `null` parse result makes both decoders throw a `TypeError`; a falsy `id`
(absent, empty string, `0`, `false` or `null`) or a `jsonrpc` value other
than the string `'2.0'` gives Malformed; then a `method` equal to `'connect'`
gives Connect — where `getMessageAndType` (`requireConnectToken = true`)
additionally demands a truthy `params?.id` and otherwise lets such a message
fall through to Request; a present `method` otherwise gives Request; then a
present `result` gives Response; then a present `error` gives Error; else
Malformed. -/
def amendedClassify (requireConnectToken : Bool) :
    Option JSValue → Except JSError MessageType
  | none => .ok .Malformed
  | some .null => .error .typeError
  | some v =>
    if !truthyOpt (getField v "id") || !isStr (getField v "jsonrpc") "2.0" then
      .ok .Malformed
    else if isStr (getField v "method") "connect"
        && (!requireConnectToken || truthyOpt (optChainField (getField v "params") "id")) then
      .ok .Connect
    else if hasField v "method" then .ok .Request
    else if hasField v "result" then .ok .Response
    else if hasField v "error" then .ok .Error
    else .ok .Malformed

/-! ## Concrete instances used by the theorems -/

/-- Whether a thrown error value is an `Errors.NotConnectedError`. -/
def RPCErr.isNotConnected : RPCErr → Bool
  | .notConnectedError _ => true
  | _ => false

/-- A wire object with `method: 'connect'` but an empty `params` object:
`{"jsonrpc":"2.0","id":"1","method":"connect","params":{}}`. -/
def connectWithoutTokenMsg : JSValue :=
  .obj [("jsonrpc", .str "2.0"), ("id", .str "1"),
        ("method", .str "connect"), ("params", .obj [])]

/-- A server with no connected devices. -/
def emptyServerEndpoint : ServerEndpoint :=
  { devices := [], requests := [], sentTo := [] }

/-- A client whose socket is in the `CLOSED` ready state (3). -/
def closedClientEndpoint : ClientEndpoint :=
  { readyState := 3, requests := [], sent := [] }

/-- A registry state in which socket 2 holds token `t` after overwriting the
registration of the still-open socket 1 (both sockets carry `token = "t"`). -/
def demoServerConn : ServerConnState :=
  { devices := [("t", 2)], sockToken := [(1, "t"), (2, "t")], rpcCloseEvents := [] }

/-- A `ReconnectingClient` that is currently connected: the first `init`
succeeded, one underlying `Client` is live. -/
def connectedRCState : ReconnectingClientState :=
  { instanceLive := true, clientsCreated := 1,
    connectedForTheFirstTime := true, serverRejected := false }

/-! ## Helper lemmas -/

/-- For `JSON.parse` results, the guard `'k' in message` is redundant next to
a strict string comparison of `message.k`. -/
theorem hasField_and_isStr (v : JSValue) (k s : String) :
    (hasField v k && isStr (getField v k) s) = isStr (getField v k) s := by
  cases h : getField v k <;> simp [hasField, isStr, h]

/-- Deleting a key from a JS map makes its lookup miss. -/
theorem lookup_mapDelete {α β : Type} [BEq α] [LawfulBEq α]
    (m : List (α × β)) (k : α) : (mapDelete m k).lookup k = none := by
  induction m with
  | nil => rfl
  | cons p t ih =>
    by_cases h : p.1 = k
    · simpa [mapDelete, List.filter_cons, h] using ih
    · have hpk : (p.1 == k) = false := by simpa using h
      have hkp : (k == p.1) = false := by simpa using Ne.symm h
      rcases p with ⟨a, b⟩
      simp only [mapDelete, List.filter_cons] at ih ⊢
      simpa [hpk, List.lookup_cons, hkp] using ih

/-- Replacing the binding of a present key makes its lookup hit the new
value. -/
theorem lookup_replace {α β : Type} [BEq α] [LawfulBEq α]
    (m : List (α × β)) (k : α) (v : β) (hmem : (m.lookup k).isSome) :
    (m.map fun p => if p.1 == k then (k, v) else p).lookup k = some v := by
  induction m with
  | nil => simp at hmem
  | cons p t ih =>
    rcases p with ⟨a, b⟩
    by_cases h : a = k
    · simp [h, List.lookup_cons]
    · have hpk : (a == k) = false := by simpa using h
      have hkp : (k == a) = false := by simpa using Ne.symm h
      simp only [List.lookup_cons, hkp] at hmem
      simp only [List.map_cons, hpk, Bool.false_eq_true, if_false, List.lookup_cons, hkp,
        if_false] at *
      exact ih hmem

/-- Appending a binding for an absent key makes its lookup hit it. -/
theorem lookup_append_single {α β : Type} [BEq α] [LawfulBEq α]
    (m : List (α × β)) (k : α) (v : β) (hmem : (m.lookup k).isSome = false) :
    ((m ++ [(k, v)]).lookup k) = some v := by
  induction m with
  | nil => simp [List.lookup_cons]
  | cons p t ih =>
    rcases p with ⟨a, b⟩
    by_cases h : a = k
    · simp [List.lookup_cons, h] at hmem
    · have hkp : (k == a) = false := by simpa using Ne.symm h
      simp only [List.lookup_cons, hkp] at hmem
      simpa [List.cons_append, List.lookup_cons, hkp] using ih hmem

/-- `Map.set` then `Map.get` on the same key yields the stored value. -/
theorem lookup_mapSet {α β : Type} [BEq α] [LawfulBEq α]
    (m : List (α × β)) (k : α) (v : β) : (mapSet m k v).lookup k = some v := by
  unfold mapSet
  by_cases hmem : (m.lookup k).isSome
  · rw [if_pos hmem]
    exact lookup_replace m k v hmem
  · rw [if_neg hmem]
    exact lookup_append_single m k v (by rwa [Bool.not_eq_true] at hmem)

/-- `getMessage` classifies exactly by the amended ordered rule (with the
permissive Connect arm). -/
theorem getMessage_classifies (v : Option JSValue) :
    (getMessage v).map RPCMessageType.kind = amendedClassify false v := by
  match v with
  | none => rfl
  | some .null => rfl
  | some (.bool b) => rfl
  | some (.num n) => rfl
  | some (.str s) => rfl
  | some (.arr xs) => rfl
  | some (.obj fs) =>
    simp only [getMessage, amendedClassify, hasField_and_isStr, Bool.not_false, Bool.true_or,
      Bool.and_true, apply_ite (Except.map RPCMessageType.kind)]
    rfl

/-- `getMessageAndType` classifies exactly by the amended ordered rule (with
the token-demanding Connect arm). -/
theorem getMessageAndType_classifies (v : Option JSValue) :
    (getMessageAndType v).map Prod.fst = amendedClassify true v := by
  match v with
  | none => rfl
  | some .null => rfl
  | some (.bool b) => rfl
  | some (.num n) => rfl
  | some (.str s) => rfl
  | some (.arr xs) => rfl
  | some (.obj fs) =>
    simp only [getMessageAndType, amendedClassify, hasField_and_isStr, Bool.not_true,
      Bool.false_or,
      apply_ite (Except.map (Prod.fst : MessageType × Option JSValue → MessageType))]
    rfl

/-! ## Claim theorems -/

/-- C1 (code evaluated at the failing schedule): a call that settles through
a matching Response before its deadline still has its timer scheduled — no
code path clears it — and when the timer then fires it invokes the stored
`reject` a second time, so the resolve/reject continuations are invoked twice
for the same call, contrary to the claimed at-most-once invariant. -/
theorem request_timer_rejects_after_settlement :
    (runCall registeredCall [.responseArrives]).timerScheduled = true ∧
    (runCall registeredCall [.responseArrives, .timerFires]).resolveInvocations = 1 ∧
    (runCall registeredCall [.responseArrives, .timerFires]).rejectInvocations = 1 :=
  ⟨rfl, rfl, rfl⟩

/-- C2 (code evaluated at the failing input): for the five-character input
string `"null"`, `JSON.parse` succeeds with the value `null`, and both
`getMessage` and `getMessageAndType` then throw a `TypeError` while reading
`message.id`, instead of returning the Malformed classification. -/
theorem decoder_throws_on_null_parse :
    getMessage (some .null) = .error .typeError ∧
    getMessageAndType (some .null) = .error .typeError :=
  ⟨rfl, rfl⟩

/-- C3 counterexample: on `{"jsonrpc":"2.0","id":"1","method":"connect",
"params":{}}` the ordered rule of the claim classifies Connect (a present
`method` equal to `'connect'`), but `getMessageAndType` classifies Request,
because its Connect arm additionally requires a truthy `params?.id`. -/
theorem getMessageAndType_breaks_ordered_rule :
    specOrderedClassify (some connectWithoutTokenMsg) = .Connect ∧
    (getMessageAndType (some connectWithoutTokenMsg)).map Prod.fst = .ok .Request ∧
    MessageType.Request ≠ MessageType.Connect :=
  ⟨rfl, rfl, by decide⟩

/-- C3 (amended): both decoders classify by the ordered rule amended as
follows — a `null` parse result throws a `TypeError`; a falsy `id` (absent,
or present but `''`, `0`, `false` or `null`) or a `jsonrpc` other than the
string `'2.0'` gives Malformed; a `method` equal to `'connect'` gives Connect,
except that `getMessageAndType` also requires a truthy `params?.id` and
otherwise classifies such a message as Request; a present `method` otherwise
gives Request; then a present `result` gives Response; then a present `error`
gives Error; else Malformed. -/
theorem decoder_classification_amended (v : Option JSValue) :
    (getMessage v).map RPCMessageType.kind = amendedClassify false v ∧
    (getMessageAndType v).map Prod.fst = amendedClassify true v :=
  ⟨getMessage_classifies v, getMessageAndType_classifies v⟩

/-- C4 counterexample: when the server settles an Error envelope whose text
is exactly `'Procedure not found.'`, it rejects the caller with the plain
`new Error(message.error)` — not with `ProcedureNotFoundError` — while the
client-side settlement of the same envelope does produce
`ProcedureNotFoundError`. -/
theorem server_settlement_not_procedure_not_found :
    serverSettle none (some (.str "Procedure not found.")) true
      = .rejectedPlainError (some (.str "Procedure not found.")) ∧
    (serverSettle none (some (.str "Procedure not found.")) true).tag
      ≠ SettleTag.procedureNotFoundTag ∧
    clientSettle false none (some (.str "Procedure not found.")) true
      = .rejectedProcedureNotFound :=
  ⟨rfl, by decide, rfl⟩

/-- C4 (amended): both endpoints answer a Request for an unregistered method
with the fixed `rpcError('Procedure not found.', id)` envelope; on
settlement, the client-side caller converts exactly that error text into
`ProcedureNotFoundError` (and any other text into `RequestError`), while the
server-side caller always rejects with a plain `Error` carrying the text,
performing no conversion. -/
theorem procedure_not_found_conversion_amended (e : String) (side : EndpointSide)
    (msgId : JSValue) :
    requestBranch side .missing msgId = [rpcError (.str "Procedure not found.") msgId] ∧
    clientSettle false none (some (.str e)) true
      = (if e = "Procedure not found." then SettleAction.rejectedProcedureNotFound
         else SettleAction.rejectedRequestError (some (.str e))) ∧
    serverSettle none (some (.str e)) true = .rejectedPlainError (some (.str e)) := by
  refine ⟨by cases side <;> rfl, ?_, rfl⟩
  by_cases he : e = "Procedure not found."
  · simp [clientSettle, isStr, he]
  · simp [clientSettle, isStr, he]

/-- C5 counterexample: `Server.call` on a token absent from the device
registry throws the plain `Error('Client with token: t1 doesn't connected')`
— not an `Errors.NotConnectedError` — though it does send nothing and leaves
the state unchanged. -/
theorem serverCall_unknown_token_plain_error :
    serverCall emptyServerEndpoint "t1" "ping" none "id1"
      = (emptyServerEndpoint,
         some (.plainError "Client with token: t1 doesn\x27t connected")) ∧
    ((serverCall emptyServerEndpoint "t1" "ping" none "id1").2.any RPCErr.isNotConnected)
      = false :=
  ⟨rfl, rfl⟩

/-- C5 (amended): a `Client.call` while the socket is not `OPEN` fails
synchronously with `Errors.NotConnectedError` and a `Server.call` on an
unknown token fails synchronously with a plain `Error` carrying
"Client with token: ... doesn't connected"; in both cases no wire message is
sent and the pending-call table is unchanged (the returned state is the input
state). -/
theorem call_without_connection_amended (c : ClientEndpoint) (s : ServerEndpoint)
    (method token : String) (params : Option JSValue) (freshId : String)
    (hc : c.readyState ≠ WS_OPEN) (hs : s.devices.lookup token = none) :
    clientCall c method params freshId = (c, some (.notConnectedError "Not connected.")) ∧
    serverCall s token method params freshId
      = (s, some (.plainError ("Client with token: " ++ token ++ " doesn\x27t connected"))) := by
  constructor
  · have hb : (c.readyState != WS_OPEN) = true := by simpa using hc
    simp [clientCall, hb]
  · simp [serverCall, hs]

/-- Witness for `call_without_connection_amended` at a closed client socket
and an empty registry. -/
theorem call_without_connection_amended_witness :
    closedClientEndpoint.readyState ≠ WS_OPEN ∧
    emptyServerEndpoint.devices.lookup "t1" = none ∧
    clientCall closedClientEndpoint "ping" none "i1"
      = (closedClientEndpoint, some (.notConnectedError "Not connected.")) :=
  ⟨by decide, rfl,
    (call_without_connection_amended closedClientEndpoint emptyServerEndpoint "ping" "t1"
      none "i1" (by decide) rfl).1⟩

/-- C6 counterexample: when the handshake hook returns `false`, the single
reply the server sends is `rpcRequest('connect', { result: false }, id)` —
its `params` object has no `message` entry at all — and when the hook throws,
the server sends no reply whatsoever (the `await` rejects the listener before
the send), contrary to the claimed human-readable `message` in the reply. -/
theorem connect_reply_lacks_message_field :
    connectBranch (some (.str "tok")) (.str "77") (.returns false)
      = { sentMessages := [rpcRequest "connect" (.obj [("result", .bool false)]) (.str "77")],
          closedSocket := true, registeredToken := some (.str "tok"), uncaught := none } ∧
    getField (.obj [("result", .bool false)]) "message" = none ∧
    connectBranch (some (.str "tok")) (.str "77") (.throws "boom")
      = { sentMessages := [], closedSocket := false,
          registeredToken := some (.str "tok"), uncaught := some "boom" } :=
  ⟨rfl, rfl, rfl⟩

/-- C6 (amended): for every inbound Connect bearing a truthy token, if the
handshake hook returns a boolean `b` the server sends exactly one Connect
reply whose `params` is exactly `{ result: b }` (never a `message` field) and
closes the transport right after the reply exactly when `b` is false; if the
hook throws, the server sends no reply, closes nothing, and the exception
escapes the message listener.  In both hook outcomes the token is already
registered before the hook result is known. -/
theorem connect_branch_amended (paramsId : Option JSValue) (msgId : JSValue)
    (b : Bool) (msg : String) (ht : truthyOpt paramsId = true) :
    connectBranch paramsId msgId (.returns b)
      = { sentMessages := [rpcRequest "connect" (.obj [("result", .bool b)]) msgId],
          closedSocket := !b, registeredToken := paramsId, uncaught := none } ∧
    getField (.obj [("result", .bool b)]) "message" = none ∧
    connectBranch paramsId msgId (.throws msg)
      = { sentMessages := [], closedSocket := false, registeredToken := paramsId,
          uncaught := some msg } := by
  refine ⟨?_, rfl, ?_⟩ <;> simp [connectBranch, ht]

/-- Witness for `connect_branch_amended` at a concrete accepted handshake. -/
theorem connect_branch_amended_witness :
    truthyOpt (some (.str "tok")) = true ∧
    connectBranch (some (.str "tok")) (.str "5") (.returns true)
      = { sentMessages := [rpcRequest "connect" (.obj [("result", .bool true)]) (.str "5")],
          closedSocket := false, registeredToken := some (.str "tok"), uncaught := none } :=
  ⟨rfl, (connect_branch_amended (some (.str "tok")) (.str "5") true "boom" rfl).1⟩

/-- C7 counterexample: when a server-side handler returns
`undefined`, the single payload the server sends for the Request with id
`"9"` is `{"jsonrpc":"2.0","id":"9"}` — `JSON.stringify` drops the
`result: undefined` entry — which carries no `result` value at all and
classifies as Malformed at the peer, not as a Response carrying `null`; the
client-side endpoint, whose `rpcResponse` has the `result: any = null`
default, does normalize the same handler outcome to a `result` of `null`. -/
theorem server_undefined_result_not_a_response :
    requestBranch .server (.returns none) (.str "9")
      = [.obj [("jsonrpc", .str "2.0"), ("id", .str "9")]] ∧
    getField (.obj [("jsonrpc", .str "2.0"), ("id", .str "9")]) "result" = none ∧
    (getMessageAndType (some (.obj [("jsonrpc", .str "2.0"), ("id", .str "9")]))).map
      Prod.fst = .ok .Malformed ∧
    requestBranch .client (.returns none) (.str "9")
      = [.obj [("jsonrpc", .str "2.0"), ("result", .null), ("id", .str "9")]] :=
  ⟨rfl, rfl, rfl, rfl⟩

/-- C7 (amended): every inbound Request is answered with exactly one envelope
carrying the same id — an Error on missing handler or handler exception, the
side's `rpcResponse` output on success; an `undefined` handler result is
normalized to `null` on the client endpoint (`RPCHelpers.rpcResponse`
default), but on the server endpoint the `result` key is omitted from the
sent payload, which therefore does not carry `null`. -/
theorem request_branch_amended (side : EndpointSide) (h : HandlerOutcome)
    (msgId : JSValue) :
    (requestBranch side h msgId).map (fun sent => getField sent "id") = [some msgId] ∧
    getField (rpcResponseHelpers none msgId) "result" = some .null ∧
    getField (rpcResponseCommon none msgId) "result" = none := by
  refine ⟨?_, rfl, rfl⟩
  cases side <;> cases h <;> first
    | rfl
    | (rename_i r; cases r <;> rfl)

/-- C8 counterexample: after socket 1 handshakes with token `t` and socket 2
handshakes with the same token (overwriting the registration), the close of
the stale socket 1 deletes the registry entry for `t` — the close handler
removes by `ws.token` without checking socket identity — and fires the
disconnect notification for `t`, so the newer socket 2 is no longer
registered. -/
theorem stale_close_removes_new_registration :
    (runServerConn emptyServerConn
      [.connectReceived 1 "t", .connectReceived 2 "t"]).devices.lookup "t" = some 2 ∧
    (runServerConn emptyServerConn
      [.connectReceived 1 "t", .connectReceived 2 "t",
        .socketClosed 1]).devices.lookup "t" = none ∧
    (runServerConn emptyServerConn
      [.connectReceived 1 "t", .connectReceived 2 "t",
        .socketClosed 1]).rpcCloseEvents = [some "t"] :=
  ⟨rfl, rfl, rfl⟩

/-- C8 (amended): a handshake for token `t` on any socket overwrites the
registry entry for `t` (last handshake wins, the prior socket is not closed
by the registry transition); however, the close of any socket whose `token`
property is `t` — including a stale socket that lost its registration —
deletes the entry for `t` outright and fires the `rpcClose(t)` notification,
so the newer socket's registration is not left intact. -/
theorem registry_close_by_token_amended (s : ServerConnState) (sock sock2 : Nat)
    (token : String) (h : s.sockToken.lookup sock = some token) :
    (serverConnStep s (.socketClosed sock)).devices.lookup token = none ∧
    (serverConnStep s (.socketClosed sock)).rpcCloseEvents
      = s.rpcCloseEvents ++ [some token] ∧
    (serverConnStep s (.connectReceived sock2 token)).devices.lookup token = some sock2 := by
  refine ⟨?_, ?_, ?_⟩
  · simp [serverConnStep, h, lookup_mapDelete]
  · simp [serverConnStep, h]
  · simp [serverConnStep, lookup_mapSet]

/-- Witness for `registry_close_by_token_amended` at the two-socket state. -/
theorem registry_close_by_token_amended_witness :
    demoServerConn.sockToken.lookup 1 = some "t" ∧
    (serverConnStep demoServerConn (.socketClosed 1)).devices.lookup "t" = none :=
  ⟨rfl, (registry_close_by_token_amended demoServerConn 1 7 "t" rfl).1⟩

/-- C9 counterexample: the envelope the encoder builds from the method name
`'connect'`, params `{}` and id `"1"` does not decode as a Request — it
decodes as a Connect classification, because the decoder tests
`method === 'connect'` before the generic Request arm. -/
theorem rpcRequest_connect_decodes_as_connect :
    getMessage (some (rpcRequest "connect" (.obj []) (.str "1")))
      = .ok (.connect (some (.str "1")) (some (.obj []))) ∧
    (getMessage (some (rpcRequest "connect" (.obj []) (.str "1")))).map
      RPCMessageType.kind = .ok .Connect ∧
    MessageType.Connect ≠ MessageType.Request :=
  ⟨rfl, rfl, by decide⟩

/-- C9 (amended): for every method name other than `'connect'` and every
non-empty id, decoding the encoded Request yields a Request with identical
method, params and id; for every non-empty id, decoding an encoded Response
preserves result and id, and decoding an encoded Error preserves the error
string and id.  (An encoded envelope with method `'connect'` decodes as
Connect, and an empty id decodes as Malformed, since the decoder tests
truthiness of `message.id`.) -/
theorem codec_roundtrip_amended (m : String) (p : JSValue) (i e : String)
    (hm : m ≠ "connect") (hi : i ≠ "") :
    getMessage (some (rpcRequest m p (.str i)))
      = .ok (.request (some (.str i)) (some (.str m)) (some p)) ∧
    getMessage (some (rpcResponseHelpers (some p) (.str i)))
      = .ok (.response (some (.str i)) (some p)) ∧
    getMessage (some (rpcError (.str e) (.str i)))
      = .ok (.error (some (.str i)) (some (.str e))) := by
  have hi' : (i != "") = true := by simpa using hi
  have hm' : (m == "connect") = false := by simpa using hm
  refine ⟨?_, ?_, ?_⟩ <;>
    simp [getMessage, rpcRequest, rpcResponseHelpers, rpcError, getField, truthyOpt,
      JSValue.truthy, isStr, hasField, List.lookup, hi', hm']

/-- Witness for `codec_roundtrip_amended` at the method `'ping'`, params
`{}`, id `"1"` and error text `"boom"`. -/
theorem codec_roundtrip_amended_witness :
    ("ping" : String) ≠ "connect" ∧ ("1" : String) ≠ "" ∧
    getMessage (some (rpcRequest "ping" (.obj []) (.str "1")))
      = .ok (.request (some (.str "1")) (some (.str "ping")) (some (.obj []))) :=
  ⟨by decide, by decide,
    (codec_roundtrip_amended "ping" (.obj []) "1" "boom" (by decide) (by decide)).1⟩

/-- C10 (code evaluated at the failing state): invoking `init()` on a
`ReconnectingClient` that is currently connected does not fail with the
distinguished already-connected error — there is no such check in `init` and
no `AlreadyConnected` class in `errors.ts` — it resets
`connectedForTheFirstTime` and constructs a second underlying `Client`
transport, although the bundled connection test expects
`init()` to reject with `Errors.AlreadyConnected` in exactly this state. -/
theorem rcInit_ignores_connected_state :
    rcInit connectedRCState
      = ({ instanceLive := true, clientsCreated := 2,
           connectedForTheFirstTime := false, serverRejected := false },
         .startedNewClient) ∧
    (rcInit connectedRCState).2 ≠ .failedAlreadyConnected ∧
    connectedRCState.instanceLive = true :=
  ⟨rfl, by decide, rfl⟩
